import Mathlib

/-!
Verification of the configuration resolver in `src/config.py` of the
osulv-dc-bot repository.

The module resolves configuration keys from two sources: an environment-style
key/value store (`os.getenv`) and an optional JSON mappings file
(`_load_from_mappings_file`).  We embed the Python values and control flow
shallowly:

* `JsonVal` models Python values as they occur in this module: strings from
  the environment, and parsed JSON values from the mappings file (Python
  `str`, `int`, `bool`, `None`, `list`, `dict`).  JSON floats and `\u` string
  escapes do not occur in any configuration of interest and are not modelled
  (the parser rejects them).
* `json_loads` models `json.loads` on a string: a fueled recursive-descent
  parser producing `Option JsonVal` (`none` = `json.JSONDecodeError`).
* `pyInt` models Python `int(v)` for the value shapes that can appear as a
  mapping value, returning `none` where Python raises.
* Python `dict` insertion semantics (first insertion fixes the position of a
  key, a later insertion overwrites its value) are modelled by `pyDict` on
  association lists.
-/

namespace Config

/-- Python values flowing through `config.py`: environment strings and values
parsed from the mappings JSON file. -/
inductive JsonVal where
  | null
  | bool (b : Bool)
  | num (n : Int)
  | str (s : String)
  | arr (elems : List JsonVal)
  | obj (fields : List (String × JsonVal))
deriving Repr

/-- Python `dict` insertion: an existing key keeps its position and gets the
new value; a new key is appended. -/
def pyDictInsert {κ α : Type} [DecidableEq κ] (d : List (κ × α)) (k : κ) (v : α) :
    List (κ × α) :=
  if d.any (fun p => p.1 = k) then
    d.map (fun p => if p.1 = k then (k, v) else p)
  else
    d ++ [(k, v)]

/-- Build a Python `dict` from a sequence of key/value pairs (as produced by a
dict comprehension or `dict(generator)`), with last-wins overwrite
semantics. -/
def pyDict {κ α : Type} [DecidableEq κ] (l : List (κ × α)) : List (κ × α) :=
  l.foldl (fun d p => pyDictInsert d p.1 p.2) []

/-- JSON insignificant whitespace. -/
def isWs (c : Char) : Bool :=
  c = ' ' || c = '\t' || c = '\n' || c = '\r'

/-- Skip leading JSON whitespace. -/
def skipWs : List Char → List Char
  | [] => []
  | c :: cs => if isWs c then skipWs cs else c :: cs

/-- One-character JSON string escapes (the `\uXXXX` form is not modelled). -/
def escChar (c : Char) : Option Char :=
  if c = '"' then some '"'
  else if c = '\\' then some '\\'
  else if c = '/' then some '/'
  else if c = 'n' then some '\n'
  else if c = 't' then some '\t'
  else if c = 'r' then some '\r'
  else none

/-- Parse the body of a JSON string after the opening quote; returns the
string contents and the input after the closing quote. -/
def parseStrBody (fuel : Nat) (cs : List Char) : Option (List Char × List Char) :=
  match fuel, cs with
  | 0, _ => none
  | _ + 1, [] => none
  | fuel + 1, c :: cs =>
    if c = '"' then some ([], cs)
    else if c = '\\' then
      match cs with
      | [] => none
      | e :: cs2 =>
        match escChar e with
        | none => none
        | some ec =>
          match parseStrBody fuel cs2 with
          | none => none
          | some (body, rest) => some (ec :: body, rest)
    else
      match parseStrBody fuel cs with
      | none => none
      | some (body, rest) => some (c :: body, rest)

/-- Decimal value of a digit list. -/
def digitsVal (ds : List Char) : Nat :=
  ds.foldl (fun a c => a * 10 + (c.toNat - 48)) 0

/-- Parse a JSON integer (an optional minus sign and digits); JSON numbers
with a fraction or exponent are floats and are not modelled. -/
def parseNum (cs : List Char) : Option (Int × List Char) :=
  let (neg, cs1) : Bool × List Char :=
    match cs with
    | '-' :: rest => (true, rest)
    | _ => (false, cs)
  let ds := cs1.takeWhile Char.isDigit
  let rest := cs1.dropWhile Char.isDigit
  if ds.isEmpty then none
  else
    match rest with
    | '.' :: _ => none
    | 'e' :: _ => none
    | 'E' :: _ => none
    | _ => some (if neg then -(digitsVal ds : Int) else (digitsVal ds : Int), rest)

mutual

/-- Parse one JSON value (models the grammar accepted by `json.loads`). -/
def parseVal (fuel : Nat) (cs : List Char) : Option (JsonVal × List Char) :=
  match fuel with
  | 0 => none
  | fuel + 1 =>
    match skipWs cs with
    | [] => none
    | c :: rest =>
      if c = '"' then
        match parseStrBody (rest.length + 1) rest with
        | none => none
        | some (body, rest2) => some (.str (String.mk body), rest2)
      else if c = '{' then
        match skipWs rest with
        | '}' :: rest2 => some (.obj [], rest2)
        | rest2 => parseMembers fuel rest2 []
      else if c = '[' then
        match skipWs rest with
        | ']' :: rest2 => some (.arr [], rest2)
        | rest2 => parseElems fuel rest2 []
      else if c = 't' ∧ rest.take 3 = ['r', 'u', 'e'] then
        some (.bool true, rest.drop 3)
      else if c = 'f' ∧ rest.take 4 = ['a', 'l', 's', 'e'] then
        some (.bool false, rest.drop 4)
      else if c = 'n' ∧ rest.take 3 = ['u', 'l', 'l'] then
        some (.null, rest.drop 3)
      else
        match parseNum (c :: rest) with
        | none => none
        | some (n, rest2) => some (.num n, rest2)

/-- Parse the members of a JSON object after at least one member is known to
follow; applies Python dict last-wins semantics to duplicate keys. -/
def parseMembers (fuel : Nat) (cs : List Char) (acc : List (String × JsonVal)) :
    Option (JsonVal × List Char) :=
  match fuel with
  | 0 => none
  | fuel + 1 =>
    match skipWs cs with
    | '"' :: rest =>
      match parseStrBody (rest.length + 1) rest with
      | none => none
      | some (k, rest2) =>
        match skipWs rest2 with
        | ':' :: rest3 =>
          match parseVal fuel rest3 with
          | none => none
          | some (v, rest4) =>
            match skipWs rest4 with
            | ',' :: rest5 => parseMembers fuel rest5 (acc ++ [(String.mk k, v)])
            | '}' :: rest5 => some (.obj (pyDict (acc ++ [(String.mk k, v)])), rest5)
            | _ => none
        | _ => none
    | _ => none

/-- Parse the elements of a JSON array after at least one element is known to
follow. -/
def parseElems (fuel : Nat) (cs : List Char) (acc : List JsonVal) :
    Option (JsonVal × List Char) :=
  match fuel with
  | 0 => none
  | fuel + 1 =>
    match parseVal fuel cs with
    | none => none
    | some (v, rest) =>
      match skipWs rest with
      | ',' :: rest2 => parseElems fuel rest2 (acc ++ [v])
      | ']' :: rest2 => some (.arr (acc ++ [v]), rest2)
      | _ => none

end

/-- `json.loads`: parse a complete JSON document; `none` models
`json.JSONDecodeError`. -/
def json_loads (s : String) : Option JsonVal :=
  match parseVal (s.length + 1) s.data with
  | none => none
  | some (v, rest) => if skipWs rest = [] then some v else none

/-- Python `int(s)` on a string: optional surrounding whitespace, optional
sign, a nonempty digit string; `none` models `ValueError`. -/
def pyIntOfString (s : String) : Option Int :=
  let core := (s.data.dropWhile isWs).reverse.dropWhile isWs |>.reverse
  let (neg, ds) : Bool × List Char :=
    match core with
    | '-' :: rest => (true, rest)
    | '+' :: rest => (false, rest)
    | _ => (false, core)
  if ds.isEmpty then none
  else if ds.all Char.isDigit then
    some (if neg then -(digitsVal ds : Int) else (digitsVal ds : Int))
  else none

/-- Python `int(v)` for the values a mapping entry can hold (`bool` is an
`int` subtype in Python; `int(None)`, `int(dict)`, `int(list)` raise). -/
def pyInt : JsonVal → Option Int
  | .num n => some n
  | .bool b => some (if b then 1 else 0)
  | .str s => pyIntOfString s
  | _ => none

/-- Python truthiness of the values `config.py` tests with `if x:`. -/
def JsonVal.truthy : JsonVal → Bool
  | .null => false
  | .bool b => b
  | .num n => n != 0
  | .str s => !s.isEmpty
  | .arr xs => !xs.isEmpty
  | .obj fs => !fs.isEmpty

/-! ## Sources

`Env` models the environment-style store seen through `os.getenv`:
`none` = variable unset, `some s` = set to the string `s` (possibly empty).

`FS` models the filesystem as `config.py` touches it: existence of a path
and the text content read from it (`content = none` models an unreadable
file, i.e. `open`/read raising inside the `try`). -/

def Env : Type := String → Option String

structure FS where
  pathExists : String → Bool
  content : String → Option String

/-- The default mappings path,
`os.path.abspath(os.path.join(os.path.dirname(__file__), "..", "mappings.json"))`. -/
def defaultMappingsPath : String := "/repo/mappings.json"

/-- `_load_from_mappings_file(key)`: locate the mappings file via the
`MAPPINGS_FILE` environment variable (defaulting to `defaultMappingsPath`),
return `None` if the file does not exist or reading/parsing it fails
(parse failure only logs a diagnostic), else `data.get(key)`.
A file whose top-level JSON value is not an object is outside the model
(Python would raise `AttributeError` at `data.get`, uncaught). -/
def _load_from_mappings_file (env : Env) (fs : FS) (key : String) : Option JsonVal :=
  let mappings_path := (env "MAPPINGS_FILE").getD defaultMappingsPath
  if !fs.pathExists mappings_path then none
  else
    match fs.content mappings_path with
    | none => none
    | some text =>
      match json_loads text with
      | some (.obj data) => data.lookup key
      | _ => none

/-! ## Resolver/Validator

Fatal configuration errors (`raise ValueError(...)` at module scope) are
modelled by `Except.error` carrying the message; successful resolution is
`Except.ok` carrying the typed value together with the list of
`logger.info` messages the branch emits. -/

/-- Required scalar: `if not (x := os.getenv(key)): raise ValueError(...)`.
Unset and empty-string environment values both fail. -/
def requiredScalar (env : Env) (key : String) : Except String String :=
  match env key with
  | none => .error (key ++ " environment variable is required")
  | some s =>
    if s.isEmpty then .error (key ++ " environment variable is required")
    else .ok s

/-- `DISCORD_TOKEN = discord_token` after the required check. -/
def DISCORD_TOKEN (env : Env) : Except String String :=
  requiredScalar env "DISCORD_TOKEN"

/-- Python `int(s)` where failure raises
`ValueError: invalid literal for int() with base 10: '...'` (the message
quotes the received string; `repr` escaping of exotic characters is not
modelled). -/
def intOrValueError (s : String) : Except String Int :=
  match pyIntOfString s with
  | some n => .ok n
  | none => .error ("invalid literal for int() with base 10: '" ++ s ++ "'")

/-- `SERVER_ID = int(server_id)` after the required check. -/
def SERVER_ID (env : Env) : Except String Int :=
  (requiredScalar env "SERVER_ID").bind intOrValueError

/-- `BOT_CHANNEL_ID = int(channel_id)` after the required check. -/
def BOT_CHANNEL_ID (env : Env) : Except String Int :=
  (requiredScalar env "BOT_CHANNEL_ID").bind intOrValueError

/-- Optional integer scalar: `if x: int(x) (ValueError -> fatal with errMsg)
else: log absentMsg; value = None`. -/
def optionalIntScalar (env : Env) (key errMsg absentMsg : String) :
    Except String (Option Int × List String) :=
  match env key with
  | none => .ok (none, [absentMsg])
  | some s =>
    if s.isEmpty then .ok (none, [absentMsg])
    else
      match pyIntOfString s with
      | some n => .ok (some n, [])
      | none => .error errMsg

/-- `PERVERT_ROLE`. -/
def PERVERT_ROLE (env : Env) : Except String (Option Int × List String) :=
  optionalIntScalar env "PERVERT_ROLE"
    "PERVERT_ROLE must be an integer role id"
    "PERVERT_ROLE not configured; PERVERT_ROLE set to None"

/-- `BOT_SELF_ID`. -/
def BOT_SELF_ID (env : Env) : Except String (Option Int × List String) :=
  optionalIntScalar env "BOT_SELF_ID"
    "BOT_SELF_ID must be an integer id"
    "BOT_SELF_ID not configured; BOT_SELF_ID set to None"

/-- `BOTSPAM_CHANNEL_ID`. -/
def BOTSPAM_CHANNEL_ID (env : Env) : Except String (Option Int × List String) :=
  optionalIntScalar env "BOTSPAM_CHANNEL_ID"
    "BOTSPAM_CHANNEL_ID must be an integer channel id"
    "BOTSPAM_CHANNEL_ID not configured; BOTSPAM_CHANNEL_ID set to None"

/-- Python string interpolation of a possibly-unset environment value:
`f"...{x}..."` renders `None` as the literal text `None`. -/
def pyStrOfOpt : Option String → String
  | none => "None"
  | some s => s

/-- The composed fallback
`f"postgresql://{postgres_user}:{postgres_password}@db:5432/{postgres_db}"`. -/
def composedDatabaseUrl (env : Env) : String :=
  "postgresql://" ++ pyStrOfOpt (env "POSTGRES_USER") ++ ":" ++
    pyStrOfOpt (env "POSTGRES_PASSWORD") ++ "@db:5432/" ++
    pyStrOfOpt (env "POSTGRES_DB")

/-- `DATABASE_URL = database_url if database_url else f"postgresql://..."`. -/
def DATABASE_URL (env : Env) : String :=
  match env "DATABASE_URL" with
  | none => composedDatabaseUrl env
  | some s => if s.isEmpty then composedDatabaseUrl env else s

/-- The shared source-resolution step of every mapping-typed key:
`x = os.getenv(envKey); if not x: x = _load_from_mappings_file(fileKey)`.
The result is the Python value bound to the local variable (`none` =
Python `None`); an environment string is a Python `str`, i.e. `.str`. -/
def mappingRaw (env : Env) (fs : FS) (envKey fileKey : String) : Option JsonVal :=
  match env envKey with
  | some s =>
    if s.isEmpty then _load_from_mappings_file env fs fileKey
    else some (.str s)
  | none => _load_from_mappings_file env fs fileKey

/-- `json.loads(x) if isinstance(x, str) else x` — normalization of the raw
value to a structured value; `none` models the raised decode error. -/
def normalizeRaw : JsonVal → Option JsonVal
  | .str s => json_loads s
  | v => some v

/-- The dict comprehension `{k: int(v) for k, v in obj.items()}`; fails if
the normalized value is not a dict (`.items()` raises) or some value does
not coerce with `int` (the surrounding `except Exception` turns either into
the fatal `ValueError`). -/
def coerceIntMapping : JsonVal → Option (List (String × Int))
  | .obj fields =>
    pyDict fields |>.mapM (fun p =>
      match pyInt p.2 with
      | some n => some (p.1, n)
      | none => none)
  | _ => none

/-- The shared validate/coerce step of the int-valued mapping keys
(`ROLES`, `MODS_DICT`, `USER_NEWBEST_LIMIT`, `ROLE_THRESHOLDS`): a truthy
raw value is normalized and coerced (any failure is fatal with `errMsg`);
a falsy or absent raw value yields the empty mapping and logs
`absentMsg`. -/
def resolveIntMapping (raw : Option JsonVal) (errMsg absentMsg : String) :
    Except String (List (String × Int) × List String) :=
  match raw with
  | none => .ok ([], [absentMsg])
  | some v =>
    if v.truthy then
      match normalizeRaw v with
      | none => .error errMsg
      | some obj =>
        match coerceIntMapping obj with
        | none => .error errMsg
        | some m => .ok (m, [])
    else .ok ([], [absentMsg])

/-- `ROLES`: env `ROLES_JSON`, then mappings-file key `ROLES`. -/
def ROLES (env : Env) (fs : FS) : Except String (List (String × Int) × List String) :=
  resolveIntMapping (mappingRaw env fs "ROLES_JSON" "ROLES")
    "Invalid ROLES JSON provided (env or file)"
    "No role mappings configured (no ROLES_JSON env and no mappings file)"

/-- `MODS_DICT`: env `MODS_DICT_JSON`, then mappings-file key `MODS_DICT`. -/
def MODS_DICT (env : Env) (fs : FS) : Except String (List (String × Int) × List String) :=
  resolveIntMapping (mappingRaw env fs "MODS_DICT_JSON" "MODS_DICT")
    "Invalid MODS_DICT JSON provided (env or file)"
    "MODS_DICT not provided via env or mappings file; MODS_DICT set to empty mapping"

/-- `USER_NEWBEST_LIMIT`. -/
def USER_NEWBEST_LIMIT (env : Env) (fs : FS) :
    Except String (List (String × Int) × List String) :=
  resolveIntMapping (mappingRaw env fs "USER_NEWBEST_LIMIT_JSON" "USER_NEWBEST_LIMIT")
    "Invalid USER_NEWBEST_LIMIT JSON provided (env or file)"
    "No USER_NEWBEST_LIMIT configured (no env and no mappings file)"

/-- `ROLE_TRESHOLDS`. -/
def ROLE_TRESHOLDS (env : Env) (fs : FS) :
    Except String (List (String × Int) × List String) :=
  resolveIntMapping (mappingRaw env fs "ROLE_THRESHOLDS_JSON" "ROLE_THRESHOLDS")
    "Invalid ROLE_THRESHOLDS JSON provided (env or file)"
    "No ROLE_THRESHOLDS configured (no env and no mappings file)"

/-- `RANK_EMOJI` (policy 4, opaque values): a truthy raw value is normalized
but not coerced; absent/falsy yields the empty object with a log. -/
def RANK_EMOJI (env : Env) (fs : FS) : Except String (JsonVal × List String) :=
  match mappingRaw env fs "RANK_EMOJI_JSON" "RANK_EMOJI" with
  | none => .ok (.obj [], ["No rank emojis configured (no RANK_EMOJI_JSON env and no mappings file)"])
  | some v =>
    if v.truthy then
      match normalizeRaw v with
      | none => .error "Invalid RANK_EMOJI JSON provided (env or file)"
      | some w => .ok (w, [])
    else .ok (.obj [], ["No rank emojis configured (no RANK_EMOJI_JSON env and no mappings file)"])

/-- `REV_ROLES = dict((v, k) for k, v in ROLES.items())`. -/
def REV_ROLES (roles : List (String × Int)) : List (Int × String) :=
  pyDict (roles.map (fun p => (p.2, p.1)))

/-- `ROLES_VALUE = dict((key, count) for count, key in enumerate(ROLES.keys()))`. -/
def ROLES_VALUE (roles : List (String × Int)) : List (String × Nat) :=
  pyDict ((roles.map Prod.fst).enum.map (fun p => (p.2, p.1)))

/-- The empty environment (no variable set). -/
def envNone : Env := fun _ => none

/-- The empty filesystem (no mappings file present). -/
def fsNone : FS := ⟨fun _ => false, fun _ => none⟩

/-! ## Helper lemmas -/

theorem isEmpty_false_of_ne (s : String) (h : s ≠ "") : s.isEmpty = false := by
  cases he : s.isEmpty
  · rfl
  · exact absurd ((String.isEmpty_iff s).mp he) h

theorem mappingRaw_env_some (env : Env) (fs : FS) (ek fk s : String)
    (h : env ek = some s) (hs : s ≠ "") :
    mappingRaw env fs ek fk = some (.str s) := by
  unfold mappingRaw
  rw [h]
  simp [isEmpty_false_of_ne s hs]

theorem mappingRaw_env_falsy (env : Env) (fs : FS) (ek fk : String)
    (h : env ek = none ∨ env ek = some "") :
    mappingRaw env fs ek fk = _load_from_mappings_file env fs fk := by
  unfold mappingRaw
  rcases h with h | h <;> (rw [h]; try rfl)

theorem resolveIntMapping_falsy (v : JsonVal) (e a : String) (hv : v.truthy = false) :
    resolveIntMapping (some v) e a = .ok ([], [a]) := by
  unfold resolveIntMapping
  simp [hv]

theorem resolveIntMapping_truthy (v : JsonVal) (e a : String) (hv : v.truthy = true) :
    resolveIntMapping (some v) e a =
      match (normalizeRaw v).bind coerceIntMapping with
      | none => .error e
      | some m => .ok (m, []) := by
  unfold resolveIntMapping
  simp only [hv, if_true]
  cases hn : normalizeRaw v
  · simp
  · simp

/-! ## Claims -/

/-- C1: per-key source precedence for `ROLES` (the pattern shared by every
key served by both sources).  A set, non-empty environment value wins: the
resolved value is the coercion of the environment string alone and does not
depend on the mapping file; when the environment variable is unset and the
file supplies a valid value, the resolved value is the file's value after
coercion. -/
theorem c1_source_precedence (env : Env) (fs fs2 : FS) :
    (∀ s, env "ROLES_JSON" = some s → s ≠ "" →
      ROLES env fs =
        resolveIntMapping (some (.str s))
          "Invalid ROLES JSON provided (env or file)"
          "No role mappings configured (no ROLES_JSON env and no mappings file)" ∧
      ROLES env fs = ROLES env fs2) ∧
    (env "ROLES_JSON" = none →
      ∀ v m, _load_from_mappings_file env fs "ROLES" = some v →
        v.truthy = true → (normalizeRaw v).bind coerceIntMapping = some m →
        ROLES env fs = .ok (m, [])) := by
  constructor
  · intro s hs hne
    have h1 := mappingRaw_env_some env fs "ROLES_JSON" "ROLES" s hs hne
    have h2 := mappingRaw_env_some env fs2 "ROLES_JSON" "ROLES" s hs hne
    unfold ROLES
    rw [h1, h2]
    exact ⟨rfl, rfl⟩
  · intro hn v m hload hv hc
    unfold ROLES
    rw [mappingRaw_env_falsy env fs _ _ (Or.inl hn), hload,
      resolveIntMapping_truthy v _ _ hv, hc]

/-- Witness for C1: a concrete environment value beats a file that maps
`ROLES` differently, and with the environment unset a concrete file value
resolves after coercion. -/
theorem c1_witness :
    ROLES (fun k => if k = "ROLES_JSON" then some "\x7b\"A\": 1\x7d" else none)
        ⟨fun p => p = defaultMappingsPath,
         fun p => if p = defaultMappingsPath then some "\x7b\"ROLES\": \x7b\"Z\": 9\x7d\x7d" else none⟩ =
      .ok ([("A", 1)], []) ∧
    ROLES envNone
        ⟨fun p => p = defaultMappingsPath,
         fun p => if p = defaultMappingsPath then some "\x7b\"ROLES\": \x7b\"B\": 2\x7d\x7d" else none⟩ =
      .ok ([("B", 2)], []) := by
  constructor
  · have h := (c1_source_precedence
      (fun k => if k = "ROLES_JSON" then some "\x7b\"A\": 1\x7d" else none)
      ⟨fun p => p = defaultMappingsPath,
       fun p => if p = defaultMappingsPath then some "\x7b\"ROLES\": \x7b\"Z\": 9\x7d\x7d" else none⟩
      fsNone).1 "\x7b\"A\": 1\x7d" rfl (by decide)
    rw [h.1]
    rfl
  · exact (c1_source_precedence envNone
      ⟨fun p => p = defaultMappingsPath,
       fun p => if p = defaultMappingsPath then some "\x7b\"ROLES\": \x7b\"B\": 2\x7d\x7d" else none⟩
      fsNone).2 rfl (.obj [("B", .num 2)]) [("B", 2)] rfl rfl rfl

/-- C2: each required scalar key (`DISCORD_TOKEN`, `SERVER_ID`,
`BOT_CHANNEL_ID`) fails with the fatal "environment variable is required"
error when its environment value is unset or the empty string; no default
is produced. -/
theorem c2_required_absent_or_empty_fatal (env : Env) :
    (env "DISCORD_TOKEN" = none ∨ env "DISCORD_TOKEN" = some "" →
      DISCORD_TOKEN env = .error "DISCORD_TOKEN environment variable is required") ∧
    (env "SERVER_ID" = none ∨ env "SERVER_ID" = some "" →
      SERVER_ID env = .error "SERVER_ID environment variable is required") ∧
    (env "BOT_CHANNEL_ID" = none ∨ env "BOT_CHANNEL_ID" = some "" →
      BOT_CHANNEL_ID env = .error "BOT_CHANNEL_ID environment variable is required") := by
  refine ⟨?_, ?_, ?_⟩
  · intro h; rcases h with h | h <;> (unfold DISCORD_TOKEN requiredScalar; rw [h]) <;> rfl
  · intro h; rcases h with h | h <;> (unfold SERVER_ID requiredScalar; rw [h]) <;> rfl
  · intro h; rcases h with h | h <;> (unfold BOT_CHANNEL_ID requiredScalar; rw [h]) <;> rfl

/-- Witness for C2: the three required keys at an unset and at an
empty-string environment. -/
theorem c2_witness :
    DISCORD_TOKEN envNone = .error "DISCORD_TOKEN environment variable is required" ∧
    SERVER_ID envNone = .error "SERVER_ID environment variable is required" ∧
    BOT_CHANNEL_ID (fun k => if k = "BOT_CHANNEL_ID" then some "" else none) =
      .error "BOT_CHANNEL_ID environment variable is required" :=
  ⟨(c2_required_absent_or_empty_fatal envNone).1 (Or.inl rfl),
   (c2_required_absent_or_empty_fatal envNone).2.1 (Or.inl rfl),
   (c2_required_absent_or_empty_fatal
      (fun k => if k = "BOT_CHANNEL_ID" then some "" else none)).2.2 (Or.inr rfl)⟩

/-- C3 counterexample: with `SERVER_ID=abc`, resolution raises
`ValueError: invalid literal for int() with base 10: 'abc'` — the message
quotes the received value but does not name the key `SERVER_ID`, so the
claim that the message names the offending key fails. -/
theorem c3_counterexample :
    SERVER_ID (fun k => if k = "SERVER_ID" then some "abc" else none) =
      .error "invalid literal for int() with base 10: 'abc'" ∧
    ¬ ("SERVER_ID".data <:+: "invalid literal for int() with base 10: 'abc'".data) := by
  exact ⟨rfl, by decide⟩

/-- C3 (amended): for `SERVER_ID` and `BOT_CHANNEL_ID`, a well-formed
integer string resolves to exactly that integer; a non-empty non-integer
string raises a fatal error whose message quotes the received value (the
key name is not part of the message). -/
theorem c3_required_numeric (env : Env) (s t : String) :
    (env "SERVER_ID" = some s → s ≠ "" →
      (∀ n, pyIntOfString s = some n → SERVER_ID env = .ok n) ∧
      (pyIntOfString s = none →
        SERVER_ID env = .error ("invalid literal for int() with base 10: '" ++ s ++ "'") ∧
        s.data <:+: ("invalid literal for int() with base 10: '" ++ s ++ "'").data)) ∧
    (env "BOT_CHANNEL_ID" = some t → t ≠ "" →
      (∀ n, pyIntOfString t = some n → BOT_CHANNEL_ID env = .ok n) ∧
      (pyIntOfString t = none →
        BOT_CHANNEL_ID env = .error ("invalid literal for int() with base 10: '" ++ t ++ "'") ∧
        t.data <:+: ("invalid literal for int() with base 10: '" ++ t ++ "'").data)) := by
  have key : ∀ (k u : String), env k = some u → u ≠ "" →
      (requiredScalar env k).bind intOrValueError =
        (match pyIntOfString u with
          | some n => Except.ok n
          | none => Except.error ("invalid literal for int() with base 10: '" ++ u ++ "'")) := by
    intro k u hk hu
    unfold requiredScalar
    rw [hk]
    simp only [isEmpty_false_of_ne u hu, Bool.false_eq_true, if_false]
    cases hp : pyIntOfString u <;> simp [Except.bind, intOrValueError, hp]
  have emb : ∀ u : String,
      u.data <:+: ("invalid literal for int() with base 10: '" ++ u ++ "'").data := by
    intro u
    exact ⟨"invalid literal for int() with base 10: '".data, "'".data, by
      simp [String.data_append]⟩
  constructor
  · intro hs hne
    have h := key "SERVER_ID" s hs hne
    constructor
    · intro n hn
      unfold SERVER_ID
      rw [h, hn]
    · intro hn
      unfold SERVER_ID
      rw [h, hn]
      exact ⟨rfl, emb s⟩
  · intro ht hne
    have h := key "BOT_CHANNEL_ID" t ht hne
    constructor
    · intro n hn
      unfold BOT_CHANNEL_ID
      rw [h, hn]
    · intro hn
      unfold BOT_CHANNEL_ID
      rw [h, hn]
      exact ⟨rfl, emb t⟩

/-- Witness for C3 (amended): `SERVER_ID=123` resolves to `123`;
`BOT_CHANNEL_ID=xyz` raises the quoting error. -/
theorem c3_witness :
    SERVER_ID (fun k => if k = "SERVER_ID" then some "123"
      else if k = "BOT_CHANNEL_ID" then some "xyz" else none) = .ok 123 ∧
    BOT_CHANNEL_ID (fun k => if k = "SERVER_ID" then some "123"
      else if k = "BOT_CHANNEL_ID" then some "xyz" else none) =
      .error "invalid literal for int() with base 10: 'xyz'" := by
  have h := c3_required_numeric (fun k => if k = "SERVER_ID" then some "123"
    else if k = "BOT_CHANNEL_ID" then some "xyz" else none) "123" "xyz"
  exact ⟨(h.1 rfl (by decide)).1 123 rfl, ((h.2 rfl (by decide)).2 rfl).1⟩

/-- C4 counterexample: `PERVERT_ROLE` set to the empty string is present and
not integer-parseable, yet resolution yields the unset sentinel with the
informational log instead of a fatal error. -/
theorem c4_counterexample :
    pyIntOfString "" = none ∧
    PERVERT_ROLE (fun k => if k = "PERVERT_ROLE" then some "" else none) =
      .ok (none, ["PERVERT_ROLE not configured; PERVERT_ROLE set to None"]) :=
  ⟨rfl, rfl⟩

/-- C4 (amended): for each optional scalar key, an unset or empty-string
environment value resolves to the unset sentinel `None` with only an
informational log; a present, non-empty, non-integer value raises the
key's fatal error. -/
theorem c4_optional_scalars (env : Env) :
    ((env "PERVERT_ROLE" = none ∨ env "PERVERT_ROLE" = some "") →
      PERVERT_ROLE env = .ok (none, ["PERVERT_ROLE not configured; PERVERT_ROLE set to None"])) ∧
    (∀ s, env "PERVERT_ROLE" = some s → s ≠ "" → pyIntOfString s = none →
      PERVERT_ROLE env = .error "PERVERT_ROLE must be an integer role id") ∧
    ((env "BOT_SELF_ID" = none ∨ env "BOT_SELF_ID" = some "") →
      BOT_SELF_ID env = .ok (none, ["BOT_SELF_ID not configured; BOT_SELF_ID set to None"])) ∧
    (∀ s, env "BOT_SELF_ID" = some s → s ≠ "" → pyIntOfString s = none →
      BOT_SELF_ID env = .error "BOT_SELF_ID must be an integer id") ∧
    ((env "BOTSPAM_CHANNEL_ID" = none ∨ env "BOTSPAM_CHANNEL_ID" = some "") →
      BOTSPAM_CHANNEL_ID env =
        .ok (none, ["BOTSPAM_CHANNEL_ID not configured; BOTSPAM_CHANNEL_ID set to None"])) ∧
    (∀ s, env "BOTSPAM_CHANNEL_ID" = some s → s ≠ "" → pyIntOfString s = none →
      BOTSPAM_CHANNEL_ID env = .error "BOTSPAM_CHANNEL_ID must be an integer channel id") := by
  have absent : ∀ (k e a : String), env k = none ∨ env k = some "" →
      optionalIntScalar env k e a = .ok (none, [a]) := by
    intro k e a h
    unfold optionalIntScalar
    rcases h with h | h <;> (rw [h]; try rfl)
  have invalid : ∀ (k e a s : String), env k = some s → s ≠ "" → pyIntOfString s = none →
      optionalIntScalar env k e a = .error e := by
    intro k e a s hk hs hp
    unfold optionalIntScalar
    rw [hk]
    simp [isEmpty_false_of_ne s hs, hp]
  refine ⟨?_, ?_, ?_, ?_, ?_, ?_⟩
  · exact fun h => absent "PERVERT_ROLE" _ _ h
  · exact fun s hk hs hp => invalid "PERVERT_ROLE" _ _ s hk hs hp
  · exact fun h => absent "BOT_SELF_ID" _ _ h
  · exact fun s hk hs hp => invalid "BOT_SELF_ID" _ _ s hk hs hp
  · exact fun h => absent "BOTSPAM_CHANNEL_ID" _ _ h
  · exact fun s hk hs hp => invalid "BOTSPAM_CHANNEL_ID" _ _ s hk hs hp

/-- Witness for C4 (amended): `PERVERT_ROLE` unset resolves to `None` with
the log; `BOT_SELF_ID=oops` is fatal. -/
theorem c4_witness :
    PERVERT_ROLE (fun k => if k = "BOT_SELF_ID" then some "oops" else none) =
      .ok (none, ["PERVERT_ROLE not configured; PERVERT_ROLE set to None"]) ∧
    BOT_SELF_ID (fun k => if k = "BOT_SELF_ID" then some "oops" else none) =
      .error "BOT_SELF_ID must be an integer id" := by
  have h := c4_optional_scalars (fun k => if k = "BOT_SELF_ID" then some "oops" else none)
  exact ⟨h.1 (Or.inl rfl), h.2.2.2.1 "oops" rfl (by decide) rfl⟩

/-- C5: the derived structures are computed by `REV_ROLES` and `ROLES_VALUE`
as functions of the resolved `ROLES` mapping: on `[("A",1),("B",2)]` they
give the stated reverse map and order index; on the empty mapping both are
empty; on duplicate IDs the reverse map keeps the last entry. -/
theorem c5_derived_structures :
    REV_ROLES [("A", 1), ("B", 2)] = [(1, "A"), (2, "B")] ∧
    ROLES_VALUE [("A", 1), ("B", 2)] = [("A", 0), ("B", 1)] ∧
    REV_ROLES [] = [] ∧
    ROLES_VALUE [] = [] ∧
    REV_ROLES [("A", 7), ("B", 7)] = [(7, "B")] :=
  ⟨rfl, rfl, rfl, rfl, rfl⟩

/-- C6: with no environment override and a mappings file holding
`ROLES -> obj with the string value "7"`, `ROLES` resolves to the integer
mapping with `A -> 7`: string-to-int coercion is applied to file-sourced
values exactly as to environment-sourced ones. -/
theorem c6_file_string_int_coercion :
    ROLES envNone
        ⟨fun p => p = defaultMappingsPath,
         fun p => if p = defaultMappingsPath
           then some "\x7b\"ROLES\": \x7b\"A\": \"7\"\x7d\x7d" else none⟩ =
      .ok ([("A", 7)], []) := rfl

theorem load_missing (env : Env) (fs : FS) (key : String)
    (he : fs.pathExists ((env "MAPPINGS_FILE").getD defaultMappingsPath) = false) :
    _load_from_mappings_file env fs key = none := by
  unfold _load_from_mappings_file
  simp [he]

theorem load_malformed (env : Env) (fs : FS) (key text : String)
    (hc : fs.content ((env "MAPPINGS_FILE").getD defaultMappingsPath) = some text)
    (hp : json_loads text = none) :
    _load_from_mappings_file env fs key = none := by
  unfold _load_from_mappings_file
  cases he : fs.pathExists ((env "MAPPINGS_FILE").getD defaultMappingsPath)
  · simp [he]
  · simp [he, hc, hp]

theorem mappingRaw_congr (env : Env) (fs fs2 : FS) (ek fk : String)
    (h : _load_from_mappings_file env fs fk = _load_from_mappings_file env fs2 fk) :
    mappingRaw env fs ek fk = mappingRaw env fs2 ek fk := by
  unfold mappingRaw
  cases env ek with
  | none => exact h
  | some s =>
    by_cases hs : s.isEmpty = true
    · simp [hs, h]
    · simp [hs]

/-- C7: a missing mappings file makes every file lookup return `Absent`;
a file that exists but fails to parse as JSON likewise makes every lookup
return `Absent` (only a diagnostic is logged, no fatal error), and under a
malformed file every mapping-typed key resolves exactly as it would with no
file at all — so unrelated keys still resolve from the environment or to
their defaults. -/
theorem c7_file_soft_failure (env : Env) (fs : FS) (key : String) :
    (fs.pathExists ((env "MAPPINGS_FILE").getD defaultMappingsPath) = false →
      _load_from_mappings_file env fs key = none) ∧
    (∀ text, fs.content ((env "MAPPINGS_FILE").getD defaultMappingsPath) = some text →
      json_loads text = none → _load_from_mappings_file env fs key = none) ∧
    (∀ text, fs.content ((env "MAPPINGS_FILE").getD defaultMappingsPath) = some text →
      json_loads text = none →
      ROLES env fs = ROLES env fsNone ∧
      MODS_DICT env fs = MODS_DICT env fsNone ∧
      RANK_EMOJI env fs = RANK_EMOJI env fsNone) := by
  refine ⟨fun he => load_missing env fs key he,
    fun text hc hp => load_malformed env fs key text hc hp, ?_⟩
  intro text hc hp
  have hnone : ∀ fk, _load_from_mappings_file env fs fk =
      _load_from_mappings_file env fsNone fk := by
    intro fk
    rw [load_malformed env fs fk text hc hp, load_missing env fsNone fk rfl]
  refine ⟨?_, ?_, ?_⟩
  · unfold ROLES
    rw [mappingRaw_congr env fs fsNone "ROLES_JSON" "ROLES" (hnone "ROLES")]
  · unfold MODS_DICT
    rw [mappingRaw_congr env fs fsNone "MODS_DICT_JSON" "MODS_DICT" (hnone "MODS_DICT")]
  · unfold RANK_EMOJI
    rw [mappingRaw_congr env fs fsNone "RANK_EMOJI_JSON" "RANK_EMOJI" (hnone "RANK_EMOJI")]

/-- Witness for C7: a file holding the unparseable text `not json` yields
`Absent` for `RANK_EMOJI`, while `ROLES` still resolves from the
environment. -/
theorem c7_witness :
    _load_from_mappings_file (fun k => if k = "ROLES_JSON" then some "\x7b\"A\": 1\x7d" else none)
        ⟨fun p => p = defaultMappingsPath,
         fun p => if p = defaultMappingsPath then some "not json" else none⟩ "RANK_EMOJI" =
      none ∧
    ROLES (fun k => if k = "ROLES_JSON" then some "\x7b\"A\": 1\x7d" else none)
        ⟨fun p => p = defaultMappingsPath,
         fun p => if p = defaultMappingsPath then some "not json" else none⟩ =
      .ok ([("A", 1)], []) := by
  have h := c7_file_soft_failure
    (fun k => if k = "ROLES_JSON" then some "\x7b\"A\": 1\x7d" else none)
    ⟨fun p => p = defaultMappingsPath,
     fun p => if p = defaultMappingsPath then some "not json" else none⟩ "RANK_EMOJI"
  refine ⟨h.2.1 "not json" rfl rfl, ?_⟩
  rw [(h.2.2 "not json" rfl rfl).1]
  rfl

/-- C8 counterexample: the empty string is not valid JSON, yet when the
mappings file stores `ROLES -> ""` the value is falsy and resolution
silently yields the empty-mapping default instead of a fatal error. -/
theorem c8_counterexample :
    json_loads "" = none ∧
    ROLES envNone
        ⟨fun p => p = defaultMappingsPath,
         fun p => if p = defaultMappingsPath then some "\x7b\"ROLES\": \"\"\x7d" else none⟩ =
      .ok ([], ["No role mappings configured (no ROLES_JSON env and no mappings file)"]) :=
  ⟨rfl, rfl⟩

/-- C8 (amended): once a *truthy* raw value has been retrieved — from the
environment or from a successfully parsed file — its own failures are
fatal regardless of source: a non-empty environment string that is not
valid JSON aborts `ROLES`, and a truthy file value whose
normalization/int-coercion fails aborts `MODS_DICT`. -/
theorem c8_retrieved_value_fatal (env : Env) (fs : FS) :
    (∀ s, env "ROLES_JSON" = some s → s ≠ "" → json_loads s = none →
      ROLES env fs = .error "Invalid ROLES JSON provided (env or file)") ∧
    (∀ v, env "MODS_DICT_JSON" = none →
      _load_from_mappings_file env fs "MODS_DICT" = some v → v.truthy = true →
      (normalizeRaw v).bind coerceIntMapping = none →
      MODS_DICT env fs = .error "Invalid MODS_DICT JSON provided (env or file)") := by
  constructor
  · intro s hs hne hj
    unfold ROLES
    rw [mappingRaw_env_some env fs "ROLES_JSON" "ROLES" s hs hne]
    have ht : (JsonVal.str s).truthy = true := by
      have he : (JsonVal.str s).truthy = !s.isEmpty := rfl
      rw [he, isEmpty_false_of_ne s hne]
      rfl
    rw [resolveIntMapping_truthy (.str s) _ _ ht]
    have hb : (normalizeRaw (JsonVal.str s)).bind coerceIntMapping = none := by
      show (json_loads s).bind coerceIntMapping = none
      rw [hj]
      rfl
    rw [hb]
  · intro v hn hload hv hc
    unfold MODS_DICT
    rw [mappingRaw_env_falsy env fs _ _ (Or.inl hn), hload,
      resolveIntMapping_truthy v _ _ hv, hc]

/-- Witness for C8 (amended): `ROLES_JSON=nope` (invalid JSON) is fatal for
`ROLES`; a file value `MODS_DICT -> obj with a null value` is fatal for
`MODS_DICT`. -/
theorem c8_witness :
    ROLES (fun k => if k = "ROLES_JSON" then some "nope" else none)
        ⟨fun p => p = defaultMappingsPath,
         fun p => if p = defaultMappingsPath
           then some "\x7b\"MODS_DICT\": \x7b\"HD\": null\x7d\x7d" else none⟩ =
      .error "Invalid ROLES JSON provided (env or file)" ∧
    MODS_DICT (fun k => if k = "ROLES_JSON" then some "nope" else none)
        ⟨fun p => p = defaultMappingsPath,
         fun p => if p = defaultMappingsPath
           then some "\x7b\"MODS_DICT\": \x7b\"HD\": null\x7d\x7d" else none⟩ =
      .error "Invalid MODS_DICT JSON provided (env or file)" := by
  have h := c8_retrieved_value_fatal
    (fun k => if k = "ROLES_JSON" then some "nope" else none)
    ⟨fun p => p = defaultMappingsPath,
     fun p => if p = defaultMappingsPath
       then some "\x7b\"MODS_DICT\": \x7b\"HD\": null\x7d\x7d" else none⟩
  exact ⟨h.1 "nope" rfl (by decide) rfl,
    h.2 (.obj [("HD", .null)]) rfl rfl rfl rfl⟩

/-- C9: absence is decided by Python falsiness, not key presence — an
environment variable set to the empty string falls through to the mappings
file, and a falsy file value (for instance an empty JSON object under the
key) resolves to the empty-mapping default with the informational log,
never being treated as configured. -/
theorem c9_falsiness (env : Env) (fs : FS) :
    (env "ROLES_JSON" = some "" →
      mappingRaw env fs "ROLES_JSON" "ROLES" = _load_from_mappings_file env fs "ROLES") ∧
    (∀ v, mappingRaw env fs "ROLES_JSON" "ROLES" = some v → v.truthy = false →
      ROLES env fs =
        .ok ([], ["No role mappings configured (no ROLES_JSON env and no mappings file)"])) := by
  constructor
  · intro h
    exact mappingRaw_env_falsy env fs "ROLES_JSON" "ROLES" (Or.inr h)
  · intro v hraw hv
    unfold ROLES
    rw [hraw, resolveIntMapping_falsy v _ _ hv]

/-- Witness for C9: `ROLES_JSON=""` together with a file storing
`ROLES -> empty object` resolves to the empty default with the log. -/
theorem c9_witness :
    mappingRaw (fun k => if k = "ROLES_JSON" then some "" else none)
        ⟨fun p => p = defaultMappingsPath,
         fun p => if p = defaultMappingsPath then some "\x7b\"ROLES\": \x7b\x7d\x7d" else none⟩
        "ROLES_JSON" "ROLES" =
      _load_from_mappings_file (fun k => if k = "ROLES_JSON" then some "" else none)
        ⟨fun p => p = defaultMappingsPath,
         fun p => if p = defaultMappingsPath then some "\x7b\"ROLES\": \x7b\x7d\x7d" else none⟩
        "ROLES" ∧
    ROLES (fun k => if k = "ROLES_JSON" then some "" else none)
        ⟨fun p => p = defaultMappingsPath,
         fun p => if p = defaultMappingsPath then some "\x7b\"ROLES\": \x7b\x7d\x7d" else none⟩ =
      .ok ([], ["No role mappings configured (no ROLES_JSON env and no mappings file)"]) := by
  have h := c9_falsiness (fun k => if k = "ROLES_JSON" then some "" else none)
    ⟨fun p => p = defaultMappingsPath,
     fun p => if p = defaultMappingsPath then some "\x7b\"ROLES\": \x7b\x7d\x7d" else none⟩
  exact ⟨h.1 rfl, h.2 (.obj []) rfl rfl⟩

/-- C10: `DATABASE_URL` is always a non-empty string and never fatal — an
unset or empty environment value makes it the string composed from
`POSTGRES_USER`, `POSTGRES_PASSWORD` and `POSTGRES_DB`, and unset parts are
interpolated as the literal text `None`. -/
theorem c10_database_url (env : Env) :
    DATABASE_URL env ≠ "" ∧
    ((env "DATABASE_URL" = none ∨ env "DATABASE_URL" = some "") →
      DATABASE_URL env = composedDatabaseUrl env) ∧
    (env "POSTGRES_USER" = none → env "POSTGRES_PASSWORD" = none →
      env "POSTGRES_DB" = none →
      composedDatabaseUrl env = "postgresql://None:None@db:5432/None") := by
  have hcomp : composedDatabaseUrl env ≠ "" := by
    intro h
    have h2 := congrArg String.length h
    simp only [composedDatabaseUrl, String.length_append] at h2
    have h13 : "postgresql://".length = 13 := rfl
    have h1 : ":".length = 1 := rfl
    have h9 : "@db:5432/".length = 9 := rfl
    have h0 : "".length = 0 := rfl
    rw [h13, h1, h9, h0] at h2
    omega
  refine ⟨?_, ?_, ?_⟩
  · unfold DATABASE_URL
    cases hd : env "DATABASE_URL" with
    | none => exact hcomp
    | some s =>
      by_cases hs : s.isEmpty = true
      · simp only [hs, if_true]
        exact hcomp
      · have hs2 : s.isEmpty = false := by
          cases he : s.isEmpty
          · rfl
          · exact absurd he hs
        simp only [hs2, Bool.false_eq_true, if_false]
        exact fun h => hs ((String.isEmpty_iff s).mpr h)
  · intro h
    unfold DATABASE_URL
    rcases h with h | h <;> (rw [h]; try rfl)
  · intro hu hp hd
    unfold composedDatabaseUrl
    rw [hu, hp, hd]
    rfl

/-- Witness for C10: the fully unset environment composes the URL with the
literal text `None` for each part. -/
theorem c10_witness :
    DATABASE_URL envNone = "postgresql://None:None@db:5432/None" ∧
    DATABASE_URL envNone ≠ "" := by
  have h := c10_database_url envNone
  exact ⟨(h.2.1 (Or.inl rfl)).trans (h.2.2 rfl rfl rfl), h.1⟩

end Config
